import Mathlib

/-!
Verification of the linkodin repository: entities, repositories,
interactors and generation services, embedded from the Python sources.

Conventions of the embedding:
* Python dicts (string keys, insertion ordered) are association lists
  `List (String × α)` with `dget` / `dinsert` / `ddelete` mirroring
  `d[k]`, `d[k] = v` and `del d[k]`.
* Python exceptions are values of `PyErr`; fallible code returns
  `Except PyErr α`.
* `datetime.datetime` is the record `DateTime`; `datetime.now()` is an
  explicit `now` parameter wherever the source calls it.
-/

namespace Linkodin

/-- Kinds of Python exception the embedded code can raise, with the message. -/
inductive PyErr
  | valueError (msg : String)
  | attributeError (msg : String)
  | indexError (msg : String)
  | typeError (msg : String)
  | keyError (msg : String)
deriving DecidableEq, Repr

/-- Python dict lookup `d.get(k)` / `d[k]` on an association list. -/
def dget {α : Type} (k : String) : List (String × α) → Option α
  | [] => none
  | (k2, v) :: rest => if k2 = k then some v else dget k rest

/-- Python dict update `d[k] = v`: replaces in place when the key is present,
appends otherwise (insertion order is preserved, as for a Python dict). -/
def dinsert {α : Type} (k : String) (v : α) : List (String × α) → List (String × α)
  | [] => [(k, v)]
  | (k2, v2) :: rest => if k2 = k then (k2, v) :: rest else (k2, v2) :: dinsert k v rest

/-- Python `del d[k]`: removes the entry with the given key. -/
def ddelete {α : Type} (k : String) : List (String × α) → List (String × α)
  | [] => []
  | (k2, v2) :: rest => if k2 = k then rest else (k2, v2) :: ddelete k rest

/-- Python `list(d.values())`. -/
def dvalues {α : Type} (d : List (String × α)) : List α :=
  d.map (fun kv => kv.2)

/-- Python `k in d` for a dict. -/
def dcontains {α : Type} (k : String) (d : List (String × α)) : Bool :=
  (dget k d).isSome

/-- Python truthiness of an optional string: `None` and the empty string are
falsy, every other string is truthy. -/
def pyTruthy : Option String → Bool
  | none => false
  | some s => !(s = "")

/-- Python `a or b` on optional strings with a string default:
used for `topic_hint or "industry insights"`. -/
def pyOrDefault (a : Option String) (b : String) : String :=
  match a with
  | some s => if s = "" then b else s
  | none => b

/-- Python `a or b` where both operands are optional strings
(used for `api_key or os.getenv("OPENAI_API_KEY")`). -/
def pyOrOpt (a b : Option String) : Option String :=
  if pyTruthy a then a else b

/-- The `Persona` dataclass of src/src/entities/persona.py (fields in source
order; `description` defaults to `None`). -/
structure Persona where
  id : String
  name : String
  niche : String
  target_audience : String
  localization : String
  tone : String
  industry : String
  experience_level : String
  content_themes : List String
  engagement_style : String
  personal_brand_keywords : List String
  posting_frequency : String
  description : Option String := none
deriving DecidableEq, Repr

/-- `Persona.__post_init__`: construction-time validation. Python `not s` on a
string is true exactly for the empty string. Returns the validated persona or
the `ValueError` of the first failing check, in source order. -/
def Persona.post_init (p : Persona) : Except PyErr Persona :=
  if p.id = "" then .error (.valueError "Persona ID cannot be empty")
  else if p.name = "" then .error (.valueError "Persona name cannot be empty")
  else if p.niche = "" then .error (.valueError "Persona niche cannot be empty")
  else if p.target_audience = "" then .error (.valueError "Target audience cannot be empty")
  else if p.localization = "" then .error (.valueError "Localization cannot be empty")
  else .ok p

/-- A `datetime.datetime` value (naive, no timezone, as the sources use). -/
structure DateTime where
  year : Nat
  month : Nat
  day : Nat
  hour : Nat
  minute : Nat
  second : Nat
  microsecond : Nat
deriving DecidableEq, Repr

/-- The `LinkedInPost` dataclass of src/src/entities/post.py. -/
structure LinkedInPost where
  id : String
  persona_id : String
  content : String
  image_prompt : Option String := none
  image_url : Option String := none
  hashtags : Option String := none
  created_at : Option DateTime := none
  market_analysis : Option String := none
  generation_prompt : Option String := none
deriving DecidableEq, Repr

/-- `LinkedInPost.__post_init__`: validates `id`, `persona_id`, `content` and
defaults `created_at` to `datetime.now()` (the explicit `now` argument) when it
is `None`. -/
def LinkedInPost.post_init (now : DateTime) (p : LinkedInPost) : Except PyErr LinkedInPost :=
  if p.id = "" then .error (.valueError "Post ID cannot be empty")
  else if p.persona_id = "" then .error (.valueError "Persona ID cannot be empty")
  else if p.content = "" then .error (.valueError "Post content cannot be empty")
  else .ok { p with created_at := match p.created_at with
                                  | none => some now
                                  | some d => some d }

/-- The decimal digit character for a value below ten (helper for the
zero-padded decimal fields of `datetime.isoformat`). -/
def digitChar : Nat → Char
  | 0 => '0'
  | 1 => '1'
  | 2 => '2'
  | 3 => '3'
  | 4 => '4'
  | 5 => '5'
  | 6 => '6'
  | 7 => '7'
  | 8 => '8'
  | _ => '9'

/-- `n` rendered as exactly `w` decimal digits, zero padded (the behaviour of
the `%04d`-style fields inside `datetime.isoformat`). -/
def padNum : Nat → Nat → List Char
  | 0, _ => []
  | w + 1, n => padNum w (n / 10) ++ [digitChar (n % 10)]

/-- Whether a character is an ASCII decimal digit. -/
def isDigitChar (c : Char) : Bool :=
  48 ≤ c.toNat && c.toNat ≤ 57

/-- The numeric value of a digit list (most significant first). -/
def digitsVal (cs : List Char) : Nat :=
  cs.foldl (fun a c => a * 10 + (c.toNat - 48)) 0

/-- Reads exactly `w` leading decimal digits, returning their value and the
remaining characters; fails when fewer than `w` digits are present. -/
def popNum (w : Nat) (cs : List Char) : Option (Nat × List Char) :=
  let pre := cs.take w
  if pre.length = w && pre.all isDigitChar then some (digitsVal pre, cs.drop w)
  else none

/-- Consumes one expected literal character. -/
def popChar (c : Char) : List Char → Option (List Char)
  | [] => none
  | x :: xs => if x = c then some xs else none

/-- The length in days of a month, with the Gregorian leap-year rule, as
`datetime` validates the `day` field. -/
def daysInMonth (year month : Nat) : Nat :=
  if month = 2 then
    if (year % 4 = 0 && !(year % 100 = 0)) || year % 400 = 0 then 29 else 28
  else if month = 4 || month = 6 || month = 9 || month = 11 then 30
  else 31

/-- The field ranges `datetime.datetime` enforces at construction
(`MINYEAR = 1`, `MAXYEAR = 9999`, calendar-valid day, and so on). -/
def DateTime.valid (d : DateTime) : Bool :=
  1 ≤ d.year && d.year ≤ 9999 &&
  1 ≤ d.month && d.month ≤ 12 &&
  1 ≤ d.day && d.day ≤ daysInMonth d.year d.month &&
  d.hour ≤ 23 && d.minute ≤ 59 && d.second ≤ 59 &&
  d.microsecond ≤ 999999

/-- `datetime.isoformat()`: `YYYY-MM-DDTHH:MM:SS`, with `.ffffff` appended
exactly when the microsecond field is nonzero. -/
def DateTime.isoformat (d : DateTime) : String :=
  ⟨padNum 4 d.year ++ '-' :: padNum 2 d.month ++ '-' :: padNum 2 d.day ++
   'T' :: padNum 2 d.hour ++ ':' :: padNum 2 d.minute ++ ':' :: padNum 2 d.second ++
   (if d.microsecond = 0 then [] else '.' :: padNum 6 d.microsecond)⟩

/-- `datetime.fromisoformat`, restricted to the grammar that `isoformat`
itself emits (date, `T`, time, optional 6-digit microseconds, no timezone):
the only strings this repository ever feeds to it.  Parsed fields are
validated exactly as the `datetime` constructor validates them. -/
def DateTime.fromisoformat (s : String) : Option DateTime := do
  let (year, r1) ← popNum 4 s.data
  let r2 ← popChar '-' r1
  let (month, r3) ← popNum 2 r2
  let r4 ← popChar '-' r3
  let (day, r5) ← popNum 2 r4
  let r6 ← popChar 'T' r5
  let (hour, r7) ← popNum 2 r6
  let r8 ← popChar ':' r7
  let (minute, r9) ← popNum 2 r8
  let r10 ← popChar ':' r9
  let (second, r11) ← popNum 2 r10
  let (microsecond, r12) ←
    match r11 with
    | [] => some (0, ([] : List Char))
    | c :: rest => if c = '.' then popNum 6 rest else none
  if r12 = [] then
    let d : DateTime :=
      { year := year, month := month, day := day, hour := hour,
        minute := minute, second := second, microsecond := microsecond }
    if d.valid then some d else none
  else none

/-- The `PostGenerationRequest` dataclass of src/src/entities/post.py. -/
structure PostGenerationRequest where
  persona_id : String
  topic_hint : Option String := none
  additional_context : Option String := none
deriving DecidableEq, Repr

/-- `PostGenerationRequest.__post_init__`. -/
def PostGenerationRequest.post_init (r : PostGenerationRequest) :
    Except PyErr PostGenerationRequest :=
  if r.persona_id = "" then
    .error (.valueError "Persona ID is required for post generation")
  else .ok r

/-- JSON values, as the `json` module reads and writes them for this
repository (the repositories only ever store strings, arrays of strings,
null and objects, so numbers and booleans are not needed). -/
inductive JValue
  | null
  | str (s : String)
  | arr (elements : List JValue)
  | obj (members : List (String × JValue))

/-- Lowercase hexadecimal digit (for the `\uXXXX` escapes of `json.dump`). -/
def hexDigit : Nat → Char
  | 0 => '0'
  | 1 => '1'
  | 2 => '2'
  | 3 => '3'
  | 4 => '4'
  | 5 => '5'
  | 6 => '6'
  | 7 => '7'
  | 8 => '8'
  | 9 => '9'
  | 10 => 'a'
  | 11 => 'b'
  | 12 => 'c'
  | 13 => 'd'
  | 14 => 'e'
  | _ => 'f'

/-- Four lowercase hex digits, as in a JSON `\uXXXX` escape. -/
def toHex4 (n : Nat) : String :=
  ⟨[hexDigit (n / 4096 % 16), hexDigit (n / 256 % 16), hexDigit (n / 16 % 16), hexDigit (n % 16)]⟩

/-- How `json.dump` with its default `ensure_ascii=True` writes one character
of a string: printable ASCII passes through, the two JSON metacharacters and
the usual control characters get short escapes, every other character -
including every non-ASCII character - becomes a `\uXXXX` escape (a surrogate
pair above the basic multilingual plane). -/
def escapeChar (c : Char) : String :=
  if c = '"' then "\\\""
  else if c = '\\' then "\\\\"
  else if c = '\n' then "\\n"
  else if c = '\r' then "\\r"
  else if c = '\t' then "\\t"
  else if c.toNat = 8 then "\\b"
  else if c.toNat = 12 then "\\f"
  else if 32 ≤ c.toNat && c.toNat < 127 then String.singleton c
  else if c.toNat < 65536 then "\\u" ++ toHex4 c.toNat
  else
    let v := c.toNat - 65536
    "\\u" ++ toHex4 (55296 + v / 1024) ++ "\\u" ++ toHex4 (56320 + v % 1024)

/-- A JSON string literal as `json.dump` (default `ensure_ascii=True`)
writes it. -/
def encodeString (s : String) : String :=
  "\"" ++ String.join (s.data.map escapeChar) ++ "\""

/-- Two-space indentation of every line of a rendered block, as
`json.dump(..., indent=2)` indents one nesting level. -/
def indent2 (ls : List String) : List String :=
  ls.map fun line => "  " ++ line

/-- Appends the item separator to a group's last line. -/
def addComma : List String → List String
  | [] => []
  | [l] => [l ++ ","]
  | l :: ls => l :: addComma ls

/-- Joins the rendered items of an array or object: every item but the last
gets the "," separator on its final line. -/
def joinItems : List (List String) → List String
  | [] => []
  | [g] => g
  | g :: gs => addComma g ++ joinItems gs

/-- Prefixes an object member's rendering with its encoded key and the ": "
key separator, indenting one level. -/
def keyed (k : String) : List String → List String
  | [] => []
  | l :: ls => ("  " ++ encodeString k ++ ": " ++ l) :: indent2 ls

mutual

/-- The lines of `json.dump(v, f, indent=2)` output (default
`ensure_ascii=True`), at the value's own indentation level; nested values
contribute their lines indented two more spaces.  Joining the lines with
newlines gives the exact file text. -/
def jlines : JValue → List String
  | .null => ["null"]
  | .str s => [encodeString s]
  | .arr [] => ["[]"]
  | .arr (x :: xs) => "[" :: joinItems (jlinesArr (x :: xs)) ++ ["]"]
  | .obj [] => ["\x7b\x7d"]
  | .obj (kv :: kvs) => "\x7b" :: joinItems (jlinesObj (kv :: kvs)) ++ ["\x7d"]

/-- The rendered items of a JSON array, each indented one level. -/
def jlinesArr : List JValue → List (List String)
  | [] => []
  | v :: vs => indent2 (jlines v) :: jlinesArr vs

/-- The rendered members of a JSON object, each prefixed by its key. -/
def jlinesObj : List (String × JValue) → List (List String)
  | [] => []
  | (k, v) :: kvs => keyed k (jlines v) :: jlinesObj kvs

end

/-- The exact text `json.dump(v, f, indent=2)` writes. -/
def jdump (v : JValue) : String :=
  String.intercalate "\n" (jlines v)

/-- The state of a backing JSON file as the file repositories observe it:
absent, present but failing JSON decoding (the `json.JSONDecodeError` and
`IOError` cases their `try` blocks catch), or a parsed JSON object mapping
entity ids to serialized records (the only shape this repository writes). -/
inductive FileState
  | missing
  | malformed
  | doc (contents : List (String × JValue))

/-- The shared load logic of `_load_personas` / `_load_posts`: a missing file
and undecodable contents both yield the empty store, otherwise the parsed
document. No exception escapes. -/
def FileState.load : FileState → List (String × JValue)
  | .missing => []
  | .malformed => []
  | .doc d => d

/-- `some s` iff the value is a JSON string (used for reading a string field
of a stored record). Any other shape is a type mismatch for the embedding. -/
def asStr : Option JValue → Except PyErr String
  | some (.str s) => .ok s
  | _ => .error (.typeError "expected a string value")

/-- A string-or-null field of a stored record. -/
def asOptStr : Option JValue → Except PyErr (Option String)
  | some (.str s) => .ok (some s)
  | some .null => .ok none
  | _ => .error (.typeError "expected a string or null value")

/-- Auxiliary: every element must be a JSON string. -/
def strElems : List JValue → Except PyErr (List String)
  | [] => .ok []
  | .str s :: rest => do
    let tail ← strElems rest
    .ok (s :: tail)
  | _ :: _ => .error (.typeError "expected a string element")

/-- An array-of-strings field of a stored record. -/
def asStrList : Option JValue → Except PyErr (List String)
  | some (.arr xs) => strElems xs
  | _ => .error (.typeError "expected an array value")

/-- `FilePersonaRepository._persona_to_dict`: the serialized record, keys in
source order. -/
def persona_to_dict (p : Persona) : List (String × JValue) :=
  [("id", .str p.id),
   ("name", .str p.name),
   ("niche", .str p.niche),
   ("target_audience", .str p.target_audience),
   ("localization", .str p.localization),
   ("tone", .str p.tone),
   ("industry", .str p.industry),
   ("experience_level", .str p.experience_level),
   ("content_themes", .arr (p.content_themes.map .str)),
   ("engagement_style", .str p.engagement_style),
   ("personal_brand_keywords", .arr (p.personal_brand_keywords.map .str)),
   ("posting_frequency", .str p.posting_frequency),
   ("description", match p.description with
                   | none => .null
                   | some s => .str s)]

/-- `FilePersonaRepository._dict_to_persona`, that is `Persona(**data)`: reads
each field of the stored record (the shapes this repository writes; the
dataclass itself performs no type checks) and then runs the construction-time
validation of `__post_init__`. -/
def dict_to_persona (j : JValue) : Except PyErr Persona :=
  match j with
  | .obj kvs => do
    let id ← asStr (dget "id" kvs)
    let name ← asStr (dget "name" kvs)
    let niche ← asStr (dget "niche" kvs)
    let target_audience ← asStr (dget "target_audience" kvs)
    let localization ← asStr (dget "localization" kvs)
    let tone ← asStr (dget "tone" kvs)
    let industry ← asStr (dget "industry" kvs)
    let experience_level ← asStr (dget "experience_level" kvs)
    let content_themes ← asStrList (dget "content_themes" kvs)
    let engagement_style ← asStr (dget "engagement_style" kvs)
    let personal_brand_keywords ← asStrList (dget "personal_brand_keywords" kvs)
    let posting_frequency ← asStr (dget "posting_frequency" kvs)
    let description ← asOptStr (dget "description" kvs)
    Persona.post_init
      { id := id, name := name, niche := niche, target_audience := target_audience,
        localization := localization, tone := tone, industry := industry,
        experience_level := experience_level, content_themes := content_themes,
        engagement_style := engagement_style,
        personal_brand_keywords := personal_brand_keywords,
        posting_frequency := posting_frequency, description := description }
  | _ => .error (.typeError "expected an object")

/-- `FilePostRepository._post_to_dict`: `created_at` becomes its
`isoformat()` string, or null when absent. -/
def post_to_dict (p : LinkedInPost) : List (String × JValue) :=
  [("id", .str p.id),
   ("persona_id", .str p.persona_id),
   ("content", .str p.content),
   ("image_prompt", match p.image_prompt with
                    | none => .null
                    | some s => .str s),
   ("image_url", match p.image_url with
                 | none => .null
                 | some s => .str s),
   ("hashtags", match p.hashtags with
                | none => .null
                | some s => .str s),
   ("created_at", match p.created_at with
                  | none => .null
                  | some d => .str d.isoformat),
   ("market_analysis", match p.market_analysis with
                       | none => .null
                       | some s => .str s),
   ("generation_prompt", match p.generation_prompt with
                         | none => .null
                         | some s => .str s)]

/-- `FilePostRepository._dict_to_post`: when the stored `created_at` is
truthy (a non-empty string), it is parsed back with
`datetime.fromisoformat` (a parse failure is the ValueError that call
raises); then `LinkedInPost(**data)` runs `__post_init__` with the ambient
clock `now`. -/
def dict_to_post (now : DateTime) (j : JValue) : Except PyErr LinkedInPost :=
  match j with
  | .obj kvs => do
    let id ← asStr (dget "id" kvs)
    let persona_id ← asStr (dget "persona_id" kvs)
    let content ← asStr (dget "content" kvs)
    let image_prompt ← asOptStr (dget "image_prompt" kvs)
    let image_url ← asOptStr (dget "image_url" kvs)
    let hashtags ← asOptStr (dget "hashtags" kvs)
    let createdRaw ← asOptStr (dget "created_at" kvs)
    let created_at ←
      match createdRaw with
      | none => Except.ok (none : Option DateTime)
      | some s =>
        if s = "" then
          .error (.typeError "a falsy created_at string is left unparsed")
        else
          match DateTime.fromisoformat s with
          | some d => .ok (some d)
          | none => .error (.valueError "Invalid isoformat string")
    let market_analysis ← asOptStr (dget "market_analysis" kvs)
    let generation_prompt ← asOptStr (dget "generation_prompt" kvs)
    LinkedInPost.post_init now
      { id := id, persona_id := persona_id, content := content,
        image_prompt := image_prompt, image_url := image_url,
        hashtags := hashtags, created_at := created_at,
        market_analysis := market_analysis,
        generation_prompt := generation_prompt }
  | _ => .error (.typeError "expected an object")

namespace InMemoryPersonaRepository

/-- In-memory store: `self._personas`, a dict from id to Persona. -/
def Store := List (String × Persona)

/-- `save_persona`: `self._personas[persona.id] = persona`. -/
def save_persona (p : Persona) (st : Store) : Store :=
  dinsert p.id p st

/-- `get_persona_by_id`: `self._personas.get(persona_id)`. -/
def get_persona_by_id (persona_id : String) (st : Store) : Option Persona :=
  dget persona_id st

/-- `get_all_personas`: `list(self._personas.values())`. -/
def get_all_personas (st : Store) : List Persona :=
  dvalues st

/-- `delete_persona`: removes and reports true iff the id was present. -/
def delete_persona (persona_id : String) (st : Store) : Bool × Store :=
  if dcontains persona_id st then (true, ddelete persona_id st) else (false, st)

end InMemoryPersonaRepository

namespace InMemoryPostRepository

/-- In-memory store: `self._posts`, a dict from id to LinkedInPost. -/
def Store := List (String × LinkedInPost)

/-- `save_post`: `self._posts[post.id] = post`. -/
def save_post (p : LinkedInPost) (st : Store) : Store :=
  dinsert p.id p st

/-- `get_post_by_id`. -/
def get_post_by_id (post_id : String) (st : Store) : Option LinkedInPost :=
  dget post_id st

/-- `get_posts_by_persona`: all stored posts whose `persona_id` matches. -/
def get_posts_by_persona (persona_id : String) (st : Store) : List LinkedInPost :=
  (dvalues st).filter (fun post => post.persona_id = persona_id)

/-- `get_all_posts`. -/
def get_all_posts (st : Store) : List LinkedInPost :=
  dvalues st

end InMemoryPostRepository

namespace FilePersonaRepository

/-- `_load_personas` (see `FileState.load`). -/
def load : FileState → List (String × JValue) :=
  FileState.load

/-- `_save_personas` followed by the next read: the document that was written
becomes the new file state.  (A swallowed IOError on write would leave the old
state; the write itself raises nothing either way.) -/
def save_personas (d : List (String × JValue)) : FileState :=
  .doc d

/-- The exact file text `json.dump(personas, f, indent=2)` produces for a
persona document (default `ensure_ascii=True`). -/
def written_text (d : List (String × JValue)) : String :=
  jdump (.obj d)

/-- `save_persona`: read-modify-write of the whole document. -/
def save_persona (p : Persona) (fs : FileState) : FileState :=
  save_personas (dinsert p.id (.obj (persona_to_dict p)) (load fs))

/-- `get_persona_by_id`. -/
def get_persona_by_id (persona_id : String) (fs : FileState) :
    Except PyErr (Option Persona) :=
  let personas := load fs
  match dget persona_id personas with
  | none => .ok none
  | some data => do
    let p ← dict_to_persona data
    .ok (some p)

/-- `get_all_personas`. -/
def get_all_personas (fs : FileState) : Except PyErr (List Persona) :=
  (dvalues (load fs)).mapM dict_to_persona

/-- `delete_persona`. -/
def delete_persona (persona_id : String) (fs : FileState) : Except PyErr Bool × FileState :=
  let personas := load fs
  if dcontains persona_id personas then
    (.ok true, save_personas (ddelete persona_id personas))
  else (.ok false, fs)

end FilePersonaRepository

namespace FilePostRepository

/-- `_load_posts` (see `FileState.load`). -/
def load : FileState → List (String × JValue) :=
  FileState.load

/-- `_save_posts` followed by the next read (as for the persona file). -/
def save_posts (d : List (String × JValue)) : FileState :=
  .doc d

/-- The exact file text `json.dump(posts, f, indent=2, default=str)` produces
for a post document (`default=str` never fires: every stored value is already
a string, null, or a dict of such). -/
def written_text (d : List (String × JValue)) : String :=
  jdump (.obj d)

/-- `save_post`. -/
def save_post (p : LinkedInPost) (fs : FileState) : FileState :=
  save_posts (dinsert p.id (.obj (post_to_dict p)) (load fs))

/-- `get_post_by_id`. -/
def get_post_by_id (now : DateTime) (post_id : String) (fs : FileState) :
    Except PyErr (Option LinkedInPost) :=
  let posts := load fs
  match dget post_id posts with
  | none => .ok none
  | some data => do
    let p ← dict_to_post now data
    .ok (some p)

/-- The list comprehension of `get_posts_by_persona`: keeps the records whose
raw `persona_id` entry equals the argument (a missing key is a KeyError, a
non-object record a type mismatch), converting the kept ones. -/
def posts_matching (now : DateTime) (persona_id : String) :
    List JValue → Except PyErr (List LinkedInPost)
  | [] => .ok []
  | data :: rest =>
    match data with
    | .obj kvs =>
      match dget "persona_id" kvs with
      | none => .error (.keyError "persona_id")
      | some v =>
        let isMatch := match v with
                       | .str s => s == persona_id
                       | _ => false
        if isMatch then do
          let post ← dict_to_post now data
          let others ← posts_matching now persona_id rest
          .ok (post :: others)
        else posts_matching now persona_id rest
    | _ => .error (.typeError "expected an object record")

/-- `get_posts_by_persona`. -/
def get_posts_by_persona (now : DateTime) (persona_id : String) (fs : FileState) :
    Except PyErr (List LinkedInPost) :=
  posts_matching now persona_id (dvalues (load fs))

/-- `get_all_posts`. -/
def get_all_posts (now : DateTime) (fs : FileState) : Except PyErr (List LinkedInPost) :=
  (dvalues (load fs)).mapM (dict_to_post now)

end FilePostRepository

/-- One invocation of an `AIService` method, recorded so that theorems can
speak about which service calls an interactor run performed. -/
inductive AICall
  | market_analysis_and_prompt (persona : Persona)
      (topic_hint additional_context : Option String)
  | post_content (generation_prompt : String) (persona : Persona)
  | image_prompt (post_content market_analysis : String) (persona : Persona)

/-- The `AIService` interface: the three generation stages, each a pure
request/response call that may fail.  Concrete implementations are the mock
service below and the OpenAI-backed one. -/
structure AIService where
  generate_market_analysis_and_prompt :
    Persona → Option String → Option String → Except PyErr (String × String)
  generate_post_content : String → Persona → Except PyErr String
  generate_image_prompt : String → String → Persona → Except PyErr String

namespace PersonaInteractor

/-- `create_persona` over the in-memory persona repository: fails when
`get_persona_by_id` already resolves, otherwise saves.  Returns the outcome
and the repository state afterwards. -/
def create_persona (p : Persona) (st : InMemoryPersonaRepository.Store) :
    Except PyErr Unit × InMemoryPersonaRepository.Store :=
  match InMemoryPersonaRepository.get_persona_by_id p.id st with
  | some _ =>
    (.error (.valueError ("Persona with ID '" ++ p.id ++ "' already exists")), st)
  | none => (.ok (), InMemoryPersonaRepository.save_persona p st)

/-- `update_persona`: fails when the id does not resolve, otherwise saves. -/
def update_persona (p : Persona) (st : InMemoryPersonaRepository.Store) :
    Except PyErr Unit × InMemoryPersonaRepository.Store :=
  match InMemoryPersonaRepository.get_persona_by_id p.id st with
  | none =>
    (.error (.valueError ("Persona with ID '" ++ p.id ++ "' not found")), st)
  | some _ => (.ok (), InMemoryPersonaRepository.save_persona p st)

/-- `get_persona`: pass-through. -/
def get_persona (persona_id : String) (st : InMemoryPersonaRepository.Store) :
    Option Persona :=
  InMemoryPersonaRepository.get_persona_by_id persona_id st

end PersonaInteractor

namespace PostGenerationInteractor

/-- The two repositories a `PostGenerationInteractor` is wired with
(the in-memory backends). -/
structure State where
  personas : List (String × Persona)
  posts : List (String × LinkedInPost)

/-- `generate_post` of src/src/interactors/post_generation_interactor.py over
the in-memory repositories.  `new_id` stands for the `str(uuid.uuid4())` the
method generates and `now` for `datetime.now()` inside `__post_init__`.
Returns the outcome, the repository state afterwards, and the `AIService`
calls that were made, in order. -/
def generate_post (svc : AIService) (new_id : String) (now : DateTime)
    (request : PostGenerationRequest) (st : State) :
    Except PyErr LinkedInPost × State × List AICall :=
  match dget request.persona_id st.personas with
  | none =>
    (.error (.valueError ("Persona with ID '" ++ request.persona_id ++ "' not found")),
     st, [])
  | some persona =>
    let c1 := AICall.market_analysis_and_prompt persona request.topic_hint
      request.additional_context
    match svc.generate_market_analysis_and_prompt persona request.topic_hint
      request.additional_context with
    | .error e => (.error e, st, [c1])
    | .ok (market_analysis, generation_prompt) =>
      let c2 := AICall.post_content generation_prompt persona
      match svc.generate_post_content generation_prompt persona with
      | .error e => (.error e, st, [c1, c2])
      | .ok post_content =>
        let c3 := AICall.image_prompt post_content market_analysis persona
        match svc.generate_image_prompt post_content market_analysis persona with
        | .error e => (.error e, st, [c1, c2, c3])
        | .ok image_prompt =>
          match LinkedInPost.post_init now
            { id := new_id, persona_id := request.persona_id,
              content := post_content, image_prompt := some image_prompt,
              market_analysis := some market_analysis,
              generation_prompt := some generation_prompt } with
          | .error e => (.error e, st, [c1, c2, c3])
          | .ok post =>
            (.ok post,
             { st with posts := InMemoryPostRepository.save_post post st.posts },
             [c1, c2, c3])

/-- `get_post`: pass-through to the post repository. -/
def get_post (post_id : String) (st : State) : Option LinkedInPost :=
  InMemoryPostRepository.get_post_by_id post_id st.posts

/-- `get_posts_by_persona`: pass-through to the post repository. -/
def get_posts_by_persona (persona_id : String) (st : State) : List LinkedInPost :=
  InMemoryPostRepository.get_posts_by_persona persona_id st.posts

end PostGenerationInteractor

/-- Helper for `pyIn`: whether `sub` occurs as a contiguous run of `cs`. -/
def infixOfAux (sub : List Char) : List Char → Bool
  | [] => sub.isEmpty
  | c :: cs => sub.isPrefixOf (c :: cs) || infixOfAux sub cs

/-- Python `sub in s` for strings: substring containment. -/
def pyIn (sub s : String) : Bool :=
  infixOfAux sub.data s.data

/-- Helper for `pyTitle`: tracks whether the previous character was
alphabetic. -/
def pyTitleAux : Bool → List Char → List Char
  | _, [] => []
  | prevAlpha, c :: cs =>
    (if c.isAlpha then (if prevAlpha then c.toLower else c.toUpper) else c) ::
      pyTitleAux c.isAlpha cs

/-- Python `s.title()`: uppercases the first letter of every word and
lowercases the rest. -/
def pyTitle (s : String) : String :=
  ⟨pyTitleAux false s.data⟩

/-- Python `xs[i]` on a list: the element, or the IndexError the lookup
raises when the index is out of range. -/
def pyIndex (xs : List String) (i : Nat) : Except PyErr String :=
  match xs[i]? with
  | some x => .ok x
  | none => .error (.indexError "list index out of range")

namespace MockAIService

/-- The mock market-analysis template (`kw0` is
`persona.personal_brand_keywords[0]`, already looked up). -/
def market_analysis_text (persona : Persona) (topic kw0 : String) : String :=
  ("\nMOCK MARKET ANALYSIS for " ++ persona.name ++
   ":\n\nCurrent LinkedIn Algorithm Preferences:\n• " ++ persona.engagement_style ++
   " content performs 47% better in " ++ persona.niche ++
   "\n• Posts with " ++ persona.tone ++ " tone get 3x more engagement from " ++
   persona.target_audience ++ "\n• " ++ persona.industry ++
   " professionals are 2.1x more likely to engage with content about " ++ topic ++
   "\n• Optimal posting time: Based on " ++ persona.posting_frequency ++
   " schedule\n• Key trending hashtags in " ++ persona.niche ++ ": #" ++
   (kw0.replace " " "") ++
   "\n\nViral Content Triggers:\n• Personal stories with business lessons (68% higher engagement)\n• Contrarian viewpoints that spark healthy debate\n• Data-driven insights with actionable takeaways\n• Behind-the-scenes entrepreneurial moments\n\nCurrent Market Sentiment:\nThe " ++
   persona.industry ++ " space is hungry for authentic, " ++ persona.tone ++
   " content that combines personal experience with practical insights.\n        ").trim

/-- The mock generation-prompt template. -/
def generation_prompt_text (persona : Persona) (topic : String)
    (additional_context : Option String) : String :=
  ("\nYou are " ++ persona.name ++ ", a respected voice in " ++ persona.niche ++
   ". Your audience consists of " ++ persona.target_audience ++
   ".\n\nCreate a LinkedIn post about \"" ++ topic ++
   "\" that:\n- Reflects your " ++ persona.tone ++ " tone and " ++
   persona.engagement_style ++ " style\n- Incorporates themes from: " ++
   String.intercalate ", " persona.content_themes ++
   "\n- Uses your brand keywords naturally: " ++
   String.intercalate ", " persona.personal_brand_keywords ++
   "\n- Targets professionals in " ++ persona.industry ++
   "\n- Written for " ++ persona.localization ++
   " audience\n\nThe post should:\n1. Start with a compelling hook that stops scrolling\n2. Tell a personal story or share a controversial insight\n3. Include 2-3 actionable takeaways\n4. End with a question that drives comments\n5. Be 150-200 words for optimal engagement\n6. Feel completely authentic and human-written\n\nAdditional context: " ++
   pyOrDefault additional_context "Focus on practical lessons that resonate with your audience" ++
   "\n\nWrite in first person as " ++ persona.name ++
   ". Make it viral-worthy while staying true to your authentic voice.\n        ").trim

/-- `generate_market_analysis_and_prompt` of the mock service: deterministic
templates.  The market-analysis f-string indexes
`persona.personal_brand_keywords[0]`, so its evaluation raises IndexError
when the keyword list is empty; the prompt template only joins the list. -/
def generate_market_analysis_and_prompt (persona : Persona)
    (topic_hint additional_context : Option String) :
    Except PyErr (String × String) :=
  let topic := pyOrDefault topic_hint "industry insights"
  do
    let kw0 ← pyIndex persona.personal_brand_keywords 0
    let market_analysis := market_analysis_text persona topic kw0
    let generation_prompt := generation_prompt_text persona topic additional_context
    .ok (market_analysis, generation_prompt)

/-- The canned startup-lessons post. -/
def startup_lessons_post (kw0 : String) : String :=
  "🚀 Three years ago, I made the biggest mistake of my entrepreneurial career.\n\nI spent 6 months building a product nobody wanted. Sound familiar?\n\nHere's what I learned from that $50k lesson:\n\n✅ Talk to customers BEFORE writing code\n✅ Validate demand with pre-orders, not surveys  \n✅ Build an MVP in 2 weeks, not 2 months\n\nThe hardest part? Admitting I was wrong and pivoting.\n\nBut that \"failed\" startup taught me more than any success ever could. It led to my next venture, which hit $1M ARR in 18 months.\n\nSometimes our biggest failures become our greatest teachers.\n\nWhat's the most valuable lesson you've learned from a setback? 👇\n\n#entrepreneurship #" ++
  (kw0.replace " " "") ++ " #startups #growth"

/-- The canned marketing-strategy post. -/
def marketing_strategy_post (kw0 : String) : String :=
  "📈 I just analyzed 1,000 top-performing LinkedIn posts.\n\nThe results will surprise you.\n\nIt's not about fancy graphics or perfect copy.\n\nIt's about this one thing: AUTHENTICITY.\n\nThe posts that went viral had:\n• Personal stories (not stock photos)\n• Vulnerable moments (not just wins)\n• Real data (not vague claims)\n• Questions that actually matter\n\nStop trying to sound like everyone else.\n\nYour unique perspective is your competitive advantage.\n\nWhat's one authentic story you could share that would help your audience?\n\nDrop it in the comments. Let's get real. 👇\n\n#marketing #" ++
  (kw0.replace " " "") ++ " #authenticity #growth"

/-- The canned AI-innovation post. -/
def ai_innovation_post (kw0 : String) : String :=
  "🤖 AI won't replace humans.\n\nHumans using AI will replace humans not using AI.\n\nI've been experimenting with AI tools for 6 months, and here's what I've learned:\n\nThe magic isn't in the technology.\nIt's in asking better questions.\n\nBest AI prompts I use daily:\n• \"Act as a [role] and help me [specific task]\"\n• \"Challenge my assumptions about [topic]\"\n• \"Create 10 variations of [idea] for [audience]\"\n\nThe key? Treating AI as a thinking partner, not a replacement.\n\nIt amplifies your creativity but can't replace your judgment.\n\nHow are you using AI to level up your work? Share your best prompts below! 👇\n\n#AI #" ++
  (kw0.replace " " "") ++ " #innovation #futureofwork"

/-- The generic fallback post. -/
def generic_post (persona : Persona) (kw0 : String) : String :=
  "💡 Here's something I wish someone told me earlier in my " ++
  persona.niche.toLower ++ " journey:\n\n" ++ pyTitle persona.tone ++
  " isn't just about attitude—it's a strategic advantage.\n\nWhen you approach " ++
  persona.industry.toLower ++ " with genuine " ++ persona.tone ++
  " energy, three things happen:\n\n1️⃣ You attract the right opportunities\n2️⃣ You build stronger relationships  \n3️⃣ You create solutions others miss\n\nI learned this the hard way after years of taking the \"safe\" approach.\n\nThe moment I embraced being authentically " ++
  persona.tone ++ ", everything changed.\n\nMy advice? Stop playing small. Your " ++
  persona.target_audience.toLower ++
  " need what you bring to the table.\n\nWhat's one area where you could be more " ++
  persona.tone ++ " in your approach?\n\n#" ++ (kw0.replace " " "") ++ " #" ++
  ((persona.niche.toLower).replace " " "") ++ " #growth #authenticity"

/-- `generate_post_content` of the mock service: picks a topic from keyword
matches against the lowered prompt, then builds the canned-post dict (every
entry of which indexes `personal_brand_keywords[0]`, as does the generic
fallback) and returns the matching or fallback post. -/
def generate_post_content (generation_prompt : String) (persona : Persona) :
    Except PyErr String :=
  let _topic_words := ["innovation", "growth", "lessons", "insights", "strategy"]
  let topic :=
    if pyIn "startup" generation_prompt.toLower then "startup lessons"
    else if pyIn "marketing" generation_prompt.toLower then "marketing strategy"
    else if pyIn "AI" generation_prompt.toLower ||
            pyIn "artificial intelligence" generation_prompt.toLower then "AI innovation"
    else "professional growth"
  do
    let kw0 ← pyIndex persona.personal_brand_keywords 0
    let sample_posts : List (String × String) :=
      [("startup lessons", startup_lessons_post kw0),
       ("marketing strategy", marketing_strategy_post kw0),
       ("AI innovation", ai_innovation_post kw0)]
    match dget topic sample_posts with
    | some post => .ok post
    | none => .ok (generic_post persona kw0)

/-- The four canned image-prompt templates. -/
def image_prompt_entrepreneurship (persona : Persona) : String :=
  "Professional lifestyle photo showing a confident entrepreneur in a modern workspace. Clean, minimalist office setup with natural lighting. Person looking thoughtfully at a laptop screen with notebooks and coffee nearby. Warm, inspiring atmosphere that conveys " ++
  persona.tone ++ " energy. Colors: navy blue, gold accents, clean whites. Professional but approachable aesthetic that resonates with " ++
  persona.target_audience ++ ". High-quality, authentic feel - no stock photo vibes."

/-- Marketing image-prompt template. -/
def image_prompt_marketing (persona : Persona) : String :=
  "Clean, modern graphic design showing marketing analytics dashboard or growth charts. Bright, energetic color scheme with blues and greens indicating upward trends. Include subtle elements like social media icons, engagement metrics, or conversion funnels. Professional but dynamic visual that appeals to " ++
  persona.target_audience ++ ". Style should be " ++ persona.tone ++
  " and data-driven, matching the analytical nature of marketing content."

/-- Technology image-prompt template. -/
def image_prompt_technology (persona : Persona) : String :=
  "Futuristic but approachable tech workspace scene. Modern computer setup with multiple monitors displaying code or AI interfaces. Clean, well-lit environment with subtle tech elements like circuit board patterns or digital overlays. Color palette: blues, purples, and whites with neon accents. Should feel cutting-edge but not intimidating, appealing to " ++
  persona.target_audience ++ " in the " ++ persona.industry ++ " space."

/-- Professional image-prompt template. -/
def image_prompt_professional (persona : Persona) : String :=
  "Clean, professional headshot-style image or office environment that reflects " ++
  persona.industry ++ " expertise. Person in business casual attire, looking confident and " ++
  persona.tone ++ ". Background should be clean and uncluttered, perhaps a modern office or co-working space. Lighting should be bright and professional. Colors should align with " ++
  persona.tone ++ " personality - warm and approachable. Image should inspire trust and authority in " ++
  persona.niche ++ "."

/-- `generate_image_prompt` of the mock service: picks a theme from keyword
matches against the post content and returns the matching canned template
(falling back to the professional one). -/
def generate_image_prompt (post_content : String) (_market_analysis : String)
    (persona : Persona) : Except PyErr String :=
  let theme :=
    if pyIn "startup" post_content.toLower || pyIn "entrepreneur" post_content.toLower then
      "entrepreneurship"
    else if pyIn "marketing" post_content.toLower then "marketing"
    else if pyIn "AI" post_content.toLower || pyIn "technology" post_content.toLower then
      "technology"
    else "professional"
  let image_prompts : List (String × String) :=
    [("entrepreneurship", image_prompt_entrepreneurship persona),
     ("marketing", image_prompt_marketing persona),
     ("technology", image_prompt_technology persona),
     ("professional", image_prompt_professional persona)]
  match dget theme image_prompts with
  | some prompt => .ok prompt
  | none => .ok (image_prompt_professional persona)

/-- The mock service packaged as an `AIService`. -/
def service : AIService :=
  { generate_market_analysis_and_prompt := generate_market_analysis_and_prompt,
    generate_post_content := generate_post_content,
    generate_image_prompt := generate_image_prompt }

end MockAIService

/-- A chat message of a request to the OpenAI chat-completions endpoint. -/
structure ChatMessage where
  role : String
  content : String
deriving DecidableEq, Repr

/-- The keyword arguments `client.chat.completions.create(...)` is called
with: the configured model, the message list, and the sampling temperature
when one is passed. -/
structure ChatRequest where
  model : String
  messages : List ChatMessage
  temperature : Option ℚ := none
deriving DecidableEq, Repr

/-- `OpenAIService` after `__init__`: the resolved credential and the model
identifier.  `self.client` starts as `None` and is built lazily. -/
structure OpenAIService where
  api_key : Option String
  model : String
deriving DecidableEq, Repr

namespace OpenAIService

/-- `OpenAIService.__init__(api_key, model)`: the credential argument falls
back to `os.getenv("OPENAI_API_KEY")` (the `env_key` parameter) under Python
`or` truthiness; construction performs no credential check and cannot fail. -/
def init (api_key env_key : Option String) (model : String) : OpenAIService :=
  { api_key := pyOrOpt api_key env_key, model := model }

/-- `self._has_real_key`, that is `bool(self.api_key)`. -/
def has_real_key (svc : OpenAIService) : Bool :=
  pyTruthy svc.api_key

/-- `_get_client`: lazy client construction.  On the first use with no
credential it raises the configuration ValueError; with one, the client is
built (represented by `Unit`, since the remote side is outside the model). -/
def get_client (svc : OpenAIService) : Except PyErr Unit :=
  if !svc.has_real_key then
    .error (.valueError "OpenAI API key is required for post generation. Please set OPENAI_API_KEY environment variable.")
  else .ok ()

/-- Attribute lookup `persona.language`: the `Persona` dataclass of
src/src/entities/persona.py defines no `language` field (the field is named
`localization`), so this lookup raises AttributeError at run time. -/
def persona_language (_p : Persona) : Except PyErr String :=
  .error (.attributeError "'Persona' object has no attribute 'language'")

/-- The first-agent system prompt of `generate_market_analysis_and_prompt`. -/
def stage1_system_prompt : String :=
  "You are a LinkedIn marketing genius and viral content strategist. Your expertise lies in understanding what makes LinkedIn posts go viral and generate massive engagement.\n\nYour task is to:\n1. Conduct a deep current market analysis for the given persona's niche\n2. Craft the perfect prompt that will generate viral LinkedIn posts\n\nFocus on:\n- Latest LinkedIn algorithm preferences and trends\n- What drives engagement, discussions, debates, comments, and shares\n- Storytelling techniques, psychological triggers, and marketing psychology\n- Current market dynamics in the persona's niche\n- Authenticity markers that avoid AI detection\n- Viral content patterns and structures\n\nBe creative and think outside the box. The prompt you create should consistently generate viral posts."

/-- The first-agent user content: the persona-details f-string (whose
`{persona.language}` placeholder is the failing attribute lookup), then the
conditional topic-hint and additional-context lines, then the fixed tail. -/
def stage1_user_content (persona : Persona)
    (topic_hint additional_context : Option String) : Except PyErr String := do
  let lang ← persona_language persona
  let base :=
    "\nPersona Details:\n- Name: " ++ persona.name ++
    "\n- Niche: " ++ persona.niche ++
    "\n- Target Audience: " ++ persona.target_audience ++
    "\n- Language: " ++ lang ++
    "\n- Tone: " ++ persona.tone ++
    "\n- Industry: " ++ persona.industry ++
    "\n- Experience Level: " ++ persona.experience_level ++
    "\n- Content Themes: " ++ String.intercalate ", " persona.content_themes ++
    "\n- Engagement Style: " ++ persona.engagement_style ++
    "\n- Brand Keywords: " ++ String.intercalate ", " persona.personal_brand_keywords ++
    "\n- Posting Frequency: " ++ persona.posting_frequency ++ "\n"
  let withTopic :=
    if pyTruthy topic_hint then base ++ "\nTopic Hint: " ++ topic_hint.getD ""
    else base
  let withContext :=
    if pyTruthy additional_context then
      withTopic ++ "\nAdditional Context: " ++ additional_context.getD ""
    else withTopic
  .ok (withContext ++
    "\n\nPlease provide:\n1. MARKET ANALYSIS: Deep analysis of current market trends, LinkedIn algorithm preferences, and what makes posts viral in this niche\n2. GENERATION PROMPT: A detailed, strategic prompt that will consistently generate viral LinkedIn posts for this persona")

/-- `generate_market_analysis_and_prompt`, modelled up to the moment the
remote request is issued: the prompt construction (which fails on
`persona.language`), then the lazy client check, then the exact
`chat.completions.create` keyword arguments - `temperature=0.8` is passed
for every model identifier. -/
def stage1_request (svc : OpenAIService) (persona : Persona)
    (topic_hint additional_context : Option String) : Except PyErr ChatRequest := do
  let user_content ← stage1_user_content persona topic_hint additional_context
  let _ ← svc.get_client
  .ok { model := svc.model,
        messages := [{ role := "system", content := stage1_system_prompt },
                     { role := "user", content := user_content }],
        temperature := some 0.8 }

/-- The second-agent system prompt of `generate_post_content`. -/
def stage2_system_prompt : String :=
  "You are an elite LinkedIn content creator who writes viral posts that generate massive engagement. You create authentic, attention-grabbing content that the LinkedIn algorithm loves and promotes widely.\n\nYour posts should:\n- Hook readers from the first line\n- Use proven viral content structures\n- Include psychological triggers for engagement\n- Feel completely authentic and human-written\n- Generate discussions, debates, comments, and shares\n- Match the persona's authentic voice perfectly\n- Use the latest engagement techniques and trends\n\nNever mention AI, automation, or give any hint that this is AI-generated content."

/-- `generate_post_content`, modelled up to the remote request:
`temperature=0.9` is passed for every model identifier. -/
def stage2_request (svc : OpenAIService) (generation_prompt : String)
    (_persona : Persona) : Except PyErr ChatRequest := do
  let _ ← svc.get_client
  .ok { model := svc.model,
        messages := [{ role := "system", content := stage2_system_prompt },
                     { role := "user", content := generation_prompt }],
        temperature := some 0.9 }

/-- The third-agent system prompt of `generate_image_prompt`. -/
def stage3_system_prompt : String :=
  "You are a visual content strategist who creates compelling image prompts for LinkedIn posts. Your image prompts should generate visuals that:\n\n- Grab attention in the LinkedIn feed\n- Complement and enhance the post content\n- Match the persona's brand and niche\n- Follow current visual trends on LinkedIn\n- Are professional yet engaging\n- Support the post's viral potential\n\nCreate a detailed image generation prompt that will produce a high-quality, attention-grabbing visual."

/-- The third-agent user content. -/
def stage3_user_content (post_content market_analysis : String)
    (persona : Persona) : String :=
  "\nPost Content:\n" ++ post_content ++
  "\n\nMarket Analysis Context:\n" ++ market_analysis ++
  "\n\nPersona:\n- Niche: " ++ persona.niche ++
  "\n- Industry: " ++ persona.industry ++
  "\n- Brand Keywords: " ++ String.intercalate ", " persona.personal_brand_keywords ++
  "\n- Engagement Style: " ++ persona.engagement_style ++
  "\n\nGenerate a detailed image prompt that will create the perfect visual companion for this LinkedIn post."

/-- `generate_image_prompt`, modelled up to the remote request:
`temperature=0.7` is passed for every model identifier. -/
def stage3_request (svc : OpenAIService) (post_content market_analysis : String)
    (persona : Persona) : Except PyErr ChatRequest := do
  let user_content := stage3_user_content post_content market_analysis persona
  let _ ← svc.get_client
  .ok { model := svc.model,
        messages := [{ role := "system", content := stage3_system_prompt },
                     { role := "user", content := user_content }],
        temperature := some 0.7 }

/-- Modelled from the spec and the repository's own tests
(tests/test_openai_service.py), whose `_supports_custom_temperature` does not
exist in src/src/infrastructure/openai_service.py: the newer gpt-5 model
family rejects a custom sampling temperature, so requests for those models
must omit the parameter. -/
def supports_custom_temperature (model : String) : Bool :=
  !("gpt-5".data.isPrefixOf model.data)

/-- Modelled from the spec: the temperature parameter each stage should pass,
at its fixed per-stage value, exactly for the models that support it. -/
def expected_temperature (model : String) (stage_value : ℚ) : Option ℚ :=
  if supports_custom_temperature model then some stage_value else none

end OpenAIService

/-- The sample persona used by the repository's service tests
(tests/test_openai_service.py). -/
def samplePersona : Persona :=
  { id := "test-persona", name := "Test Persona", niche := "Technology",
    target_audience := "Developers", localization := "English (US)",
    tone := "professional", industry := "Tech", experience_level := "senior",
    content_themes := ["AI", "Development"], engagement_style := "storytelling",
    personal_brand_keywords := ["innovation", "leadership"],
    posting_frequency := "weekly" }

/-- A concrete clock value for witnesses. -/
def sampleNow : DateTime :=
  { year := 2026, month := 10, day := 12, hour := 9, minute := 30, second := 0,
    microsecond := 0 }

/-- A persona with an empty `personal_brand_keywords` list (which the entity
validation allows). -/
def emptyKeywordPersona : Persona :=
  { id := "kw-empty", name := "No Keywords", niche := "Technology",
    target_audience := "Developers", localization := "English (US)",
    tone := "casual", industry := "Tech", experience_level := "mid",
    content_themes := ["AI"], engagement_style := "storytelling",
    personal_brand_keywords := [], posting_frequency := "weekly" }

/-- The Portuguese persona of tests/test_encoding.py. -/
def joaoPersona : Persona :=
  { id := "test-br", name := "João Silva", niche := "Tecnologia",
    target_audience := "Desenvolvedores brasileiros",
    localization := "Português (Brasil)", tone := "amigável",
    industry := "Engenharia de Software", experience_level := "Sênior",
    content_themes := ["programação", "educação"],
    engagement_style := "histórias pessoais",
    personal_brand_keywords := ["inovação", "tecnologia"],
    posting_frequency := "diariamente",
    description := some "Especialista em desenvolvimento" }

/-- The text `json.dump` writes when `joaoPersona` is saved into an empty
persona file. -/
def joaoFileText : String :=
  FilePersonaRepository.written_text
    (dinsert joaoPersona.id (.obj (persona_to_dict joaoPersona)) [])

/-- A persona with non-ASCII fields for the round-trip witness. -/
def mariaPersona : Persona :=
  { id := "maria-br", name := "María José", niche := "Tecnología",
    target_audience := "Emprendedores", localization := "Español (España)",
    tone := "profesional", industry := "Tecnología", experience_level := "Experto",
    content_themes := ["innovación"], engagement_style := "narrativa personal",
    personal_brand_keywords := ["tecnología"], posting_frequency := "semanal" }

/-- A concrete timestamp with microseconds for the round-trip witness. -/
def sampleDate : DateTime :=
  { year := 2025, month := 2, day := 28, hour := 23, minute := 59, second := 7,
    microsecond := 123456 }

/-- A post with non-ASCII content and a set timestamp for the round-trip
witness. -/
def portuguesePost : LinkedInPost :=
  { id := "post-br-1", persona_id := "test-br",
    content := "🚀 Programação não é apenas código.",
    image_prompt := some "Foto de um desenvolvedor trabalhando",
    market_analysis := some "Análise do mercado brasileiro",
    generation_prompt := some "Crie um post sobre programação",
    created_at := some sampleDate }

/-- An AI service whose three stages all succeed but whose second stage
returns the empty string. -/
def emptyContentService : AIService :=
  { generate_market_analysis_and_prompt := fun _ _ _ => .ok ("analysis", "prompt"),
    generate_post_content := fun _ _ => .ok "",
    generate_image_prompt := fun _ _ _ => .ok "image" }

/-- A trivial AI service whose stages return fixed non-empty strings
(a stand-in implementation of the AIService interface for witnesses). -/
def demoService : AIService :=
  { generate_market_analysis_and_prompt := fun _ _ _ => .ok ("demo analysis", "demo prompt"),
    generate_post_content := fun _ _ => .ok "demo content",
    generate_image_prompt := fun _ _ _ => .ok "demo image" }

/-- The live service configured with a key and the gpt-5 model. -/
def gpt5Service : OpenAIService :=
  OpenAIService.init (some "test-key") none "gpt-5"

/-- The live service constructed with no credential anywhere. -/
def noKeyService : OpenAIService :=
  OpenAIService.init none none "gpt-4"

section Lemmas

/-- Binding a failed `Except` computation propagates the failure. -/
theorem except_bind_error {ε α β : Type} (e : ε) (f : α → Except ε β) :
    (Except.error e >>= f : Except ε β) = Except.error e := rfl

/-- Binding a successful `Except` computation applies the continuation. -/
theorem except_bind_ok {ε α β : Type} (a : α) (f : α → Except ε β) :
    (Except.ok a >>= f : Except ε β) = f a := rfl

/-- Looking a key up right after inserting it finds the inserted value. -/
theorem dget_dinsert_self {α : Type} (k : String) (v : α) (l : List (String × α)) :
    dget k (dinsert k v l) = some v := by
  induction l with
  | nil => simp [dget, dinsert]
  | cons kv rest ih =>
    obtain ⟨k2, v2⟩ := kv
    by_cases h : k2 = k
    · simp [dget, dinsert, h]
    · simp [dget, dinsert, h, ih]

/-- The value just inserted is among the dict values. -/
theorem mem_dvalues_dinsert {α : Type} (k : String) (v : α) (l : List (String × α)) :
    v ∈ dvalues (dinsert k v l) := by
  induction l with
  | nil => simp [dinsert, dvalues]
  | cons kv rest ih =>
    obtain ⟨k2, v2⟩ := kv
    by_cases h : k2 = k
    · simp [dinsert, dvalues, h]
    · simp only [dinsert, dvalues, List.map_cons, h, if_false]
      exact List.mem_cons_of_mem _ (by simpa [dvalues] using ih)

/-- `padNum` always renders exactly `w` characters. -/
theorem padNum_length (w n : Nat) : (padNum w n).length = w := by
  induction w generalizing n with
  | zero => rfl
  | succ w ih => simp [padNum, ih]

/-- The digit characters are digits. -/
theorem digitChar_isDigit (n : Nat) : isDigitChar (digitChar n) = true := by
  rcases n with _ | _ | _ | _ | _ | _ | _ | _ | _ | _ | n <;> rfl

/-- The digit characters decode to their value. -/
theorem digitChar_val (n : Nat) (h : n < 10) : (digitChar n).toNat - 48 = n := by
  interval_cases n <;> rfl

/-- Every character `padNum` renders is a digit. -/
theorem padNum_all_digits (w n : Nat) : (padNum w n).all isDigitChar = true := by
  induction w generalizing n with
  | zero => rfl
  | succ w ih => simp [padNum, List.all_append, ih, digitChar_isDigit]

/-- Folding the decimal accumulator over a `padNum` rendering recovers the
rendered value. -/
theorem foldl_padNum (w n acc : Nat) (h : n < 10 ^ w) :
    (padNum w n).foldl (fun a c => a * 10 + (c.toNat - 48)) acc = acc * 10 ^ w + n := by
  induction w generalizing n acc with
  | zero =>
    simp only [pow_zero, Nat.lt_one_iff] at h
    simp [padNum, h]
  | succ w ih =>
    have hdiv : n / 10 < 10 ^ w := by
      rw [Nat.div_lt_iff_lt_mul (by norm_num)]
      calc n < 10 ^ (w + 1) := h
        _ = 10 ^ w * 10 := by ring
    have hmod : n % 10 < 10 := Nat.mod_lt _ (by norm_num)
    rw [padNum, List.foldl_append, ih (n / 10) acc hdiv]
    simp only [List.foldl_cons, List.foldl_nil]
    rw [digitChar_val (n % 10) hmod]
    calc (acc * 10 ^ w + n / 10) * 10 + n % 10
        = acc * (10 ^ w * 10) + (10 * (n / 10) + n % 10) := by ring
      _ = acc * 10 ^ (w + 1) + n := by rw [Nat.div_add_mod]; ring

/-- `digitsVal` inverts `padNum` below the width bound. -/
theorem digitsVal_padNum (w n : Nat) (h : n < 10 ^ w) :
    digitsVal (padNum w n) = n := by
  unfold digitsVal
  rw [foldl_padNum w n 0 h]
  ring

/-- Taking exactly the length of the left part of an append. -/
theorem take_of_length_eq {α : Type} {l₁ l₂ : List α} {w : Nat} (h : l₁.length = w) :
    (l₁ ++ l₂).take w = l₁ := by
  subst h; exact List.take_left _ _

/-- Dropping exactly the length of the left part of an append. -/
theorem drop_of_length_eq {α : Type} {l₁ l₂ : List α} {w : Nat} (h : l₁.length = w) :
    (l₁ ++ l₂).drop w = l₂ := by
  subst h; exact List.drop_left _ _

/-- Reading `w` digits off a `padNum` rendering returns the value and the
rest of the input. -/
theorem popNum_padNum (w n : Nat) (rest : List Char) (h : n < 10 ^ w) :
    popNum w (padNum w n ++ rest) = some (n, rest) := by
  have hlen : (padNum w n).length = w := padNum_length w n
  have htake : (padNum w n ++ rest).take w = padNum w n := take_of_length_eq hlen
  have hdrop : (padNum w n ++ rest).drop w = rest := drop_of_length_eq hlen
  simp only [popNum, htake, hdrop, hlen, padNum_all_digits, Bool.and_self,
    if_true, digitsVal_padNum w n h]
  simp

/-- Reading an expected character succeeds exactly on that character. -/
theorem popChar_cons (c : Char) (rest : List Char) :
    popChar c (c :: rest) = some rest := by
  simp [popChar]

/-- `popNum` with nothing after the digits. -/
theorem popNum_padNum_nil (w n : Nat) (h : n < 10 ^ w) :
    popNum w (padNum w n) = some (n, []) := by
  conv_lhs => rw [← List.append_nil (padNum w n)]
  exact popNum_padNum w n [] h

/-- Binding a present option applies the continuation. -/
theorem option_bind_some {α β : Type} (a : α) (f : α → Option β) :
    (some a >>= f) = f a := rfl

/-- Every month is at most 31 days long. -/
theorem daysInMonth_le (year month : Nat) : daysInMonth year month ≤ 31 := by
  unfold daysInMonth
  split_ifs <;> norm_num

/-- Parsing an `isoformat` rendering of a calendar-valid `DateTime` recovers
it: the round trip the file post repository relies on for `created_at`. -/
theorem fromisoformat_isoformat (d : DateTime) (h : d.valid = true) :
    DateTime.fromisoformat d.isoformat = some d := by
  have hb := h
  unfold DateTime.valid at hb
  simp only [Bool.and_eq_true, decide_eq_true_eq] at hb
  have hdm := daysInMonth_le d.year d.month
  have h4 : d.year < 10 ^ 4 := by norm_num; omega
  have hmo : d.month < 10 ^ 2 := by norm_num; omega
  have hdy : d.day < 10 ^ 2 := by norm_num; omega
  have hhr : d.hour < 10 ^ 2 := by norm_num; omega
  have hmin : d.minute < 10 ^ 2 := by norm_num; omega
  have hsec : d.second < 10 ^ 2 := by norm_num; omega
  have hms : d.microsecond < 10 ^ 6 := by norm_num; omega
  have eY : ∀ rest, popNum 4 (padNum 4 d.year ++ rest) = some (d.year, rest) :=
    fun rest => popNum_padNum 4 d.year rest h4
  have eMo : ∀ rest, popNum 2 (padNum 2 d.month ++ rest) = some (d.month, rest) :=
    fun rest => popNum_padNum 2 d.month rest hmo
  have eDy : ∀ rest, popNum 2 (padNum 2 d.day ++ rest) = some (d.day, rest) :=
    fun rest => popNum_padNum 2 d.day rest hdy
  have eHr : ∀ rest, popNum 2 (padNum 2 d.hour ++ rest) = some (d.hour, rest) :=
    fun rest => popNum_padNum 2 d.hour rest hhr
  have eMin : ∀ rest, popNum 2 (padNum 2 d.minute ++ rest) = some (d.minute, rest) :=
    fun rest => popNum_padNum 2 d.minute rest hmin
  have eSec : ∀ rest, popNum 2 (padNum 2 d.second ++ rest) = some (d.second, rest) :=
    fun rest => popNum_padNum 2 d.second rest hsec
  have eSecN : popNum 2 (padNum 2 d.second) = some (d.second, []) :=
    popNum_padNum_nil 2 d.second hsec
  have eMs : popNum 6 (padNum 6 d.microsecond) = some (d.microsecond, []) :=
    popNum_padNum_nil 6 d.microsecond hms
  unfold DateTime.fromisoformat DateTime.isoformat
  by_cases hz : d.microsecond = 0
  · have he : ({ year := d.year, month := d.month, day := d.day, hour := d.hour,
                 minute := d.minute, second := d.second, microsecond := 0 } :
               DateTime) = d := by rw [← hz]
    rw [if_pos hz]
    simp only [List.append_assoc, List.cons_append, List.append_nil,
      eY, eMo, eDy, eHr, eMin, eSecN, popChar_cons, option_bind_some, he, h, reduceIte]
  · rw [if_neg hz]
    simp only [List.append_assoc, List.cons_append,
      eY, eMo, eDy, eHr, eMin, eSec, eMs, popChar_cons, option_bind_some, h, reduceIte]

/-- An `isoformat` rendering is never the empty string. -/
theorem isoformat_ne_empty (d : DateTime) : d.isoformat ≠ "" := by
  have hlen : 4 ≤ d.isoformat.data.length := by
    unfold DateTime.isoformat
    simp [List.length_append, padNum_length]
  intro hcontra
  rw [hcontra] at hlen
  simp at hlen

/-- A mapped string list decodes to itself. -/
theorem strElems_map_str (l : List String) : strElems (l.map JValue.str) = .ok l := by
  induction l with
  | nil => rfl
  | cons x xs ih => simp [strElems, ih, except_bind_ok]

/-- Serializing a validated persona and reading the record back yields the
persona: the per-record round trip of the file persona repository. -/
theorem dict_to_persona_to_dict (p : Persona) (h : Persona.post_init p = .ok p) :
    dict_to_persona (.obj (persona_to_dict p)) = .ok p := by
  have hgoal : dict_to_persona (.obj (persona_to_dict p)) = Persona.post_init p := by
    rcases hdesc : p.description with _ | s <;>
      (simp only [dict_to_persona, persona_to_dict, hdesc, dget, asStr, asOptStr, asStrList,
        strElems_map_str, except_bind_ok, String.reduceEq, reduceIte]
       rw [← hdesc])
  rw [hgoal, h]

/-- Serializing a validated post with a set calendar-valid timestamp and
reading the record back yields the post: the per-record round trip of the
file post repository. -/
theorem dict_to_post_to_dict (now : DateTime) (post : LinkedInPost) (d : DateTime)
    (hid : post.id ≠ "") (hpid : post.persona_id ≠ "") (hc : post.content ≠ "")
    (hca : post.created_at = some d) (hd : d.valid = true) :
    dict_to_post now (.obj (post_to_dict post)) = .ok post := by
  have hiso : DateTime.fromisoformat d.isoformat = some d := fromisoformat_isoformat d hd
  have hne : d.isoformat ≠ "" := isoformat_ne_empty d
  obtain ⟨pid0, ppid0, pc0, pip, piu, phs, pca, pma, pgp⟩ := post
  dsimp only at hid hpid hc hca
  subst hca
  rcases pip with _ | s1 <;> rcases piu with _ | s2 <;> rcases phs with _ | s3 <;>
  rcases pma with _ | s4 <;> rcases pgp with _ | s5 <;>
    simp only [dict_to_post, post_to_dict, dget, asStr, asOptStr,
      except_bind_ok, String.reduceEq, reduceIte, hne, hiso,
      LinkedInPost.post_init, hid, hpid, hc, if_false, ite_false]

end Lemmas

/-- C2: a generation request whose `persona_id` resolves to no stored persona
fails with the not-found ValueError embedding that id, with no AIService call
made, no post saved and the repositories unchanged. -/
theorem generate_post_unknown_persona (svc : AIService) (new_id : String)
    (now : DateTime) (request : PostGenerationRequest)
    (st : PostGenerationInteractor.State)
    (h : dget request.persona_id st.personas = none) :
    PostGenerationInteractor.generate_post svc new_id now request st =
      (.error (.valueError ("Persona with ID '" ++ request.persona_id ++ "' not found")),
       st, []) := by
  unfold PostGenerationInteractor.generate_post
  rw [h]

/-- Witness for C2 at a concrete empty store. -/
theorem generate_post_unknown_persona_witness :
    PostGenerationInteractor.generate_post MockAIService.service "id-1" sampleNow
      { persona_id := "missing" } { personas := [], posts := [] } =
      (.error (.valueError ("Persona with ID '" ++ "missing" ++ "' not found")),
       { personas := [], posts := [] }, []) :=
  generate_post_unknown_persona MockAIService.service "id-1" sampleNow
    { persona_id := "missing" } { personas := [], posts := [] } rfl

/-- C3: persona construction succeeds exactly when the five mandatory fields
are non-empty, and an empty field fails with the ValueError naming the first
empty field in check order. -/
theorem persona_validation (p : Persona) :
    (Persona.post_init p = .ok p ↔
      (p.id ≠ "" ∧ p.name ≠ "" ∧ p.niche ≠ "" ∧ p.target_audience ≠ "" ∧
       p.localization ≠ "")) ∧
    (p.id = "" →
      Persona.post_init p = .error (.valueError "Persona ID cannot be empty")) ∧
    (p.id ≠ "" → p.name = "" →
      Persona.post_init p = .error (.valueError "Persona name cannot be empty")) ∧
    (p.id ≠ "" → p.name ≠ "" → p.niche = "" →
      Persona.post_init p = .error (.valueError "Persona niche cannot be empty")) ∧
    (p.id ≠ "" → p.name ≠ "" → p.niche ≠ "" → p.target_audience = "" →
      Persona.post_init p = .error (.valueError "Target audience cannot be empty")) ∧
    (p.id ≠ "" → p.name ≠ "" → p.niche ≠ "" → p.target_audience ≠ "" →
      p.localization = "" →
      Persona.post_init p = .error (.valueError "Localization cannot be empty")) := by
  unfold Persona.post_init
  split_ifs with h1 h2 h3 h4 h5 <;> simp_all

/-- C5: creating the same persona twice from an empty store: the first call
succeeds and stores the record, the second fails with the duplicate-id
ValueError embedding the id, and the store still holds exactly the one record
written by the first call. -/
theorem create_persona_twice (p : Persona) :
    PersonaInteractor.create_persona p [] = (.ok (), [(p.id, p)]) ∧
    PersonaInteractor.create_persona p [(p.id, p)] =
      (.error (.valueError ("Persona with ID '" ++ p.id ++ "' already exists")),
       [(p.id, p)]) := by
  constructor
  · simp [PersonaInteractor.create_persona, InMemoryPersonaRepository.get_persona_by_id,
      InMemoryPersonaRepository.save_persona, dget, dinsert]
  · simp [PersonaInteractor.create_persona, InMemoryPersonaRepository.get_persona_by_id,
      dget]

/-- C1 (amended): with persona P stored under the request id, the request id
equal to P.id, all three AIService stages succeeding, and the stage-2 content
non-empty (the generated uuid is non-empty by construction), generate_post
returns a post carrying the four stage outputs and the persona id, persists
it, and the post is retrievable by the new id and listed under P.id. -/
theorem generate_post_success (svc : AIService) (new_id : String) (now : DateTime)
    (request : PostGenerationRequest) (st : PostGenerationInteractor.State)
    (P : Persona) (ma gp c ip : String)
    (hstored : dget request.persona_id st.personas = some P)
    (hid : request.persona_id = P.id)
    (hPid : P.id ≠ "")
    (h1 : svc.generate_market_analysis_and_prompt P request.topic_hint
      request.additional_context = .ok (ma, gp))
    (h2 : svc.generate_post_content gp P = .ok c)
    (h3 : svc.generate_image_prompt c ma P = .ok ip)
    (hnid : new_id ≠ "") (hc : c ≠ "") :
    ∃ post st2,
      PostGenerationInteractor.generate_post svc new_id now request st =
        (.ok post, st2,
         [.market_analysis_and_prompt P request.topic_hint request.additional_context,
          .post_content gp P, .image_prompt c ma P]) ∧
      post.id = new_id ∧ post.persona_id = P.id ∧ post.content = c ∧
      post.image_prompt = some ip ∧ post.market_analysis = some ma ∧
      post.generation_prompt = some gp ∧
      st2.personas = st.personas ∧
      PostGenerationInteractor.get_post new_id st2 = some post ∧
      post ∈ PostGenerationInteractor.get_posts_by_persona P.id st2 := by
  have hreqid : request.persona_id ≠ "" := by rw [hid]; exact hPid
  unfold PostGenerationInteractor.generate_post
  simp only [hstored, h1, h2, h3, LinkedInPost.post_init, hnid, hreqid, hc,
    if_false, ite_false, reduceIte]
  refine ⟨_, _, rfl, rfl, hid, rfl, rfl, rfl, rfl, rfl,
    dget_dinsert_self _ _ _, ?_⟩
  show _ ∈ List.filter _ (dvalues (dinsert new_id _ st.posts))
  refine List.mem_filter.mpr ⟨mem_dvalues_dinsert _ _ _, ?_⟩
  simp [hid]

/-- Witness for C1 with a concrete service and the sample persona stored. -/
theorem generate_post_success_witness :
    ∃ post st2,
      PostGenerationInteractor.generate_post demoService "new-id" sampleNow
        { persona_id := "test-persona" }
        { personas := [("test-persona", samplePersona)], posts := [] } =
        (.ok post, st2,
         [.market_analysis_and_prompt samplePersona none none,
          .post_content "demo prompt" samplePersona,
          .image_prompt "demo content" "demo analysis" samplePersona]) ∧
      post.id = "new-id" ∧ post.persona_id = samplePersona.id ∧
      post.content = "demo content" ∧
      post.image_prompt = some "demo image" ∧
      post.market_analysis = some "demo analysis" ∧
      post.generation_prompt = some "demo prompt" ∧
      st2.personas = [("test-persona", samplePersona)] ∧
      PostGenerationInteractor.get_post "new-id" st2 = some post ∧
      post ∈ PostGenerationInteractor.get_posts_by_persona samplePersona.id st2 :=
  generate_post_success demoService "new-id" sampleNow
    { persona_id := "test-persona" }
    { personas := [("test-persona", samplePersona)], posts := [] }
    samplePersona "demo analysis" "demo prompt" "demo content" "demo image"
    rfl rfl (by decide) rfl rfl rfl (by decide) (by decide)

/-- C1 counterexample: the persona is stored, all three AIService stages
succeed (stage 2 returning the empty string), yet generate_post raises the
content ValueError instead of returning and persisting a post - the claim as
stated fails. -/
theorem generate_post_success_counterexample :
    emptyContentService.generate_market_analysis_and_prompt samplePersona none none =
      .ok ("analysis", "prompt") ∧
    emptyContentService.generate_post_content "prompt" samplePersona = .ok "" ∧
    emptyContentService.generate_image_prompt "" "analysis" samplePersona = .ok "image" ∧
    (PostGenerationInteractor.generate_post emptyContentService "new-id" sampleNow
      { persona_id := "test-persona" }
      { personas := [("test-persona", samplePersona)], posts := [] }).1 =
      .error (.valueError "Post content cannot be empty") :=
  ⟨rfl, rfl, rfl, rfl⟩

/-- C9: with the backing file missing, or with contents that fail JSON
decoding, every read operation of both file-backed repositories returns the
empty-store result - absent for a lookup, the empty list for the sweeps - and
no error is raised. -/
theorem file_read_on_missing_or_malformed (now : DateTime) (some_id : String)
    (fs : FileState) (h : fs = FileState.missing ∨ fs = FileState.malformed) :
    FilePersonaRepository.get_persona_by_id some_id fs = .ok none ∧
    FilePersonaRepository.get_all_personas fs = .ok [] ∧
    FilePostRepository.get_post_by_id now some_id fs = .ok none ∧
    FilePostRepository.get_posts_by_persona now some_id fs = .ok [] ∧
    FilePostRepository.get_all_posts now fs = .ok [] := by
  rcases h with h | h <;> subst h <;> exact ⟨rfl, rfl, rfl, rfl, rfl⟩

/-- Witness for C9 at the missing-file state. -/
theorem file_read_on_missing_or_malformed_witness :
    FilePersonaRepository.get_persona_by_id "any-id" .missing = .ok none ∧
    FilePersonaRepository.get_all_personas .missing = .ok [] ∧
    FilePostRepository.get_post_by_id sampleNow "any-id" .missing = .ok none ∧
    FilePostRepository.get_posts_by_persona sampleNow "any-id" .missing = .ok [] ∧
    FilePostRepository.get_all_posts sampleNow .missing = .ok [] :=
  file_read_on_missing_or_malformed sampleNow "any-id" .missing (Or.inl rfl)

set_option maxRecDepth 100000 in
/-- C6 (code-bug demonstration): saving the Portuguese persona of
tests/test_encoding.py writes a file whose characters are all ASCII - the
non-ASCII name appears only as escape sequences such as the escaped form of
the a-tilde, never verbatim - although the spec and those tests require the
text verbatim with no escaping. -/
theorem file_json_escapes_non_ascii :
    (joaoPersona.name.data.all fun c => c.toNat < 128) = false ∧
    (joaoFileText.data.all fun c => c.toNat < 128) = true ∧
    pyIn joaoPersona.name joaoFileText = false ∧
    pyIn "Jo\\u00e3o" joaoFileText = true :=
  ⟨by decide, by decide, by decide, by decide⟩

/-- C4: saving a validated persona, or a validated post with a set
calendar-valid timestamp, and loading it back by id through either the
in-memory or the file-backed repository yields a value equal to the original
in every field (non-ASCII text included, since nothing restricts the string
fields); the file backend stores `created_at` as the ISO-8601 string
`isoformat` produces and `fromisoformat` restores it to an equal timestamp. -/
theorem repository_roundtrip (p : Persona) (post : LinkedInPost) (d now : DateTime)
    (stP : InMemoryPersonaRepository.Store) (stQ : InMemoryPostRepository.Store)
    (fsP fsQ : FileState)
    (hp : Persona.post_init p = .ok p)
    (hid : post.id ≠ "") (hpid : post.persona_id ≠ "") (hc : post.content ≠ "")
    (hca : post.created_at = some d) (hd : d.valid = true) :
    InMemoryPersonaRepository.get_persona_by_id p.id
      (InMemoryPersonaRepository.save_persona p stP) = some p ∧
    InMemoryPostRepository.get_post_by_id post.id
      (InMemoryPostRepository.save_post post stQ) = some post ∧
    FilePersonaRepository.get_persona_by_id p.id
      (FilePersonaRepository.save_persona p fsP) = .ok (some p) ∧
    FilePostRepository.get_post_by_id now post.id
      (FilePostRepository.save_post post fsQ) = .ok (some post) ∧
    dget "created_at" (post_to_dict post) = some (.str d.isoformat) ∧
    DateTime.fromisoformat d.isoformat = some d := by
  refine ⟨dget_dinsert_self _ _ _, dget_dinsert_self _ _ _, ?_, ?_, ?_,
    fromisoformat_isoformat d hd⟩
  · show FilePersonaRepository.get_persona_by_id p.id
      (.doc (dinsert p.id (.obj (persona_to_dict p)) (FilePersonaRepository.load fsP))) =
        .ok (some p)
    unfold FilePersonaRepository.get_persona_by_id
    simp only [FilePersonaRepository.load, FileState.load, dget_dinsert_self,
      dict_to_persona_to_dict p hp, except_bind_ok]
  · show FilePostRepository.get_post_by_id now post.id
      (.doc (dinsert post.id (.obj (post_to_dict post)) (FilePostRepository.load fsQ))) =
        .ok (some post)
    unfold FilePostRepository.get_post_by_id
    simp only [FilePostRepository.load, FileState.load, dget_dinsert_self,
      dict_to_post_to_dict now post d hid hpid hc hca hd, except_bind_ok]
  · simp only [post_to_dict, dget, hca, String.reduceEq, reduceIte]

/-- Witness for C4 at a concrete non-ASCII persona and post. -/
theorem repository_roundtrip_witness :
    InMemoryPersonaRepository.get_persona_by_id mariaPersona.id
      (InMemoryPersonaRepository.save_persona mariaPersona []) = some mariaPersona ∧
    InMemoryPostRepository.get_post_by_id portuguesePost.id
      (InMemoryPostRepository.save_post portuguesePost []) = some portuguesePost ∧
    FilePersonaRepository.get_persona_by_id mariaPersona.id
      (FilePersonaRepository.save_persona mariaPersona .missing) = .ok (some mariaPersona) ∧
    FilePostRepository.get_post_by_id sampleNow portuguesePost.id
      (FilePostRepository.save_post portuguesePost .missing) = .ok (some portuguesePost) ∧
    dget "created_at" (post_to_dict portuguesePost) = some (.str sampleDate.isoformat) ∧
    DateTime.fromisoformat sampleDate.isoformat = some sampleDate :=
  repository_roundtrip mariaPersona portuguesePost sampleDate sampleNow [] []
    .missing .missing rfl (by decide) (by decide) (by decide) rfl (by decide)

/-- C10: a persona with an empty `personal_brand_keywords` list passes entity
validation, yet the mock service's stage 1 raises IndexError for every hint,
and its stage 2 raises IndexError for every generation prompt: the offline
mock path is total only when the keyword list is non-empty. -/
theorem mock_service_empty_keywords (p : Persona)
    (hkw : p.personal_brand_keywords = [])
    (hid : p.id ≠ "") (hname : p.name ≠ "") (hniche : p.niche ≠ "")
    (hta : p.target_audience ≠ "") (hloc : p.localization ≠ "") :
    Persona.post_init p = .ok p ∧
    (∀ topic_hint additional_context,
      MockAIService.generate_market_analysis_and_prompt p topic_hint
        additional_context = .error (.indexError "list index out of range")) ∧
    (∀ generation_prompt,
      MockAIService.generate_post_content generation_prompt p =
        .error (.indexError "list index out of range")) := by
  refine ⟨?_, ?_, ?_⟩
  · simp [Persona.post_init, hid, hname, hniche, hta, hloc]
  · intro th ac
    simp [MockAIService.generate_market_analysis_and_prompt, pyIndex, hkw,
      except_bind_error]
  · intro gp
    simp [MockAIService.generate_post_content, pyIndex, hkw, except_bind_error]

/-- Witness for C10 at a concrete keywordless persona. -/
theorem mock_service_empty_keywords_witness :
    Persona.post_init emptyKeywordPersona = .ok emptyKeywordPersona ∧
    MockAIService.generate_market_analysis_and_prompt emptyKeywordPersona none none =
      .error (.indexError "list index out of range") ∧
    MockAIService.generate_post_content "a prompt" emptyKeywordPersona =
      .error (.indexError "list index out of range") := by
  obtain ⟨h1, h2, h3⟩ := mock_service_empty_keywords emptyKeywordPersona rfl
    (by decide) (by decide) (by decide) (by decide) (by decide)
  exact ⟨h1, h2 none none, h3 "a prompt"⟩

/-- C7: the live service passes a sampling temperature for every model
identifier - stage 2 passes 0.9 and stage 3 passes 0.7 even for the gpt-5
family that the spec and the repository's tests require to receive none (and
stage 1, which would pass 0.8, fails before building its request on the
`persona.language` lookup). -/
theorem openai_temperature_passed_for_gpt5 :
    OpenAIService.supports_custom_temperature "gpt-5" = false ∧
    (OpenAIService.stage2_request gpt5Service "test prompt" samplePersona).map
      ChatRequest.temperature = .ok (some 0.9) ∧
    (OpenAIService.stage3_request gpt5Service "content" "analysis" samplePersona).map
      ChatRequest.temperature = .ok (some 0.7) ∧
    OpenAIService.stage1_request gpt5Service samplePersona none none =
      .error (.attributeError "'Persona' object has no attribute 'language'") :=
  ⟨by decide, rfl, rfl, rfl⟩

/-- C8: constructing the live service without a credential succeeds and
stages 2 and 3 raise the configuration ValueError lazily, before any remote
request; but stage 1 raises AttributeError on the nonexistent
`persona.language` field before the credential check is ever reached. -/
theorem openai_missing_credential :
    OpenAIService.init none none "gpt-4" = { api_key := none, model := "gpt-4" } ∧
    noKeyService.has_real_key = false ∧
    OpenAIService.stage2_request noKeyService "prompt" samplePersona =
      .error (.valueError "OpenAI API key is required for post generation. Please set OPENAI_API_KEY environment variable.") ∧
    OpenAIService.stage3_request noKeyService "content" "analysis" samplePersona =
      .error (.valueError "OpenAI API key is required for post generation. Please set OPENAI_API_KEY environment variable.") ∧
    OpenAIService.stage1_request noKeyService samplePersona none none =
      .error (.attributeError "'Persona' object has no attribute 'language'") :=
  ⟨rfl, rfl, rfl, rfl, rfl⟩

end Linkodin
